import Mathlib

/-!
Verification development for the Network Topology Learning backend
(`src/main.py`, `src/schemas.py`).

The data model and endpoint handlers are shallowly embedded: Python dicts
become association lists with `List.lookup`, Pydantic models become
structures, `HTTPException` becomes an error value, the response/persist
pair of the submit handler becomes an explicit pair, and the document
store (whose adapter `database.py` is not part of the two source files)
is abstracted by the outcome of its single `insert` call.
-/

namespace QuizApp

/-- A minimal JSON value type, used to model request bodies and the JSON
rendering of responses. -/
inductive Json where
  | null : Json
  | str : String → Json
  | int : Int → Json
  | bool : Bool → Json
  | arr : List Json → Json
  | obj : List (String × Json) → Json
deriving Repr

/-- The field names of a JSON object (empty for non-objects). -/
def Json.objKeys : Json → List String
  | .obj fields => fields.map Prod.fst
  | _ => []

/-- A quiz-bank question as stored in `QUIZ_BANK` in `src/main.py`:
id, text, options, and the correct-option index `answer`. -/
structure BankQuestion where
  id : String
  question : String
  options : List String
  answer : Int
deriving Repr, DecidableEq

/-- One entry of `QUIZ_BANK`: a title and an ordered question list. -/
structure QuizData where
  title : String
  questions : List BankQuestion
deriving Repr, DecidableEq

/-- The static quiz bank `QUIZ_BANK["network-topologies"]` from
`src/main.py` lines 28-70. -/
def networkTopologiesData : QuizData :=
  { title := "Computer Network Topologies"
    questions :=
      [ { id := "q1"
          question := "Which topology uses a central hub/switch to connect all nodes?"
          options := ["Bus", "Star", "Ring", "Mesh"]
          answer := 1 }
      , { id := "q2"
          question := "In which topology does data travel in one direction around a closed loop?"
          options := ["Ring", "Tree", "Hybrid", "Bus"]
          answer := 0 }
      , { id := "q3"
          question := "Which topology provides multiple redundant paths between nodes?"
          options := ["Mesh", "Bus", "Star", "Tree"]
          answer := 0 }
      , { id := "q4"
          question := "A backbone cable with terminators at both ends describes which topology?"
          options := ["Bus", "Star", "Tree", "Hybrid"]
          answer := 0 }
      , { id := "q5"
          question := "Which topology is a hierarchical combination of star topologies?"
          options := ["Mesh", "Tree", "Ring", "Bus"]
          answer := 1 }
      , { id := "q6"
          question := "A network combining multiple topology types is called?"
          options := ["Composite", "Mixed", "Hybrid", "Aggregate"]
          answer := 2 } ] }

/-- `QUIZ_BANK` (`src/main.py` line 28): a dict from quiz key to quiz
data, modelled as an association list. -/
def QUIZ_BANK : List (String × QuizData) :=
  [("network-topologies", networkTopologiesData)]

/-- `QuizQuestion` from `src/schemas.py` lines 31-34: the public,
answer-free question record used in the `GET` response model. -/
structure QuizQuestion where
  id : String
  question : String
  options : List String
deriving Repr, DecidableEq

/-- `QuizDefinition` from `src/main.py` lines 74-76: the `GET` response
model. -/
structure QuizDefinition where
  title : String
  questions : List QuizQuestion
deriving Repr, DecidableEq

/-- `QuizSubmission` from `src/schemas.py` lines 36-43. `answers` is a
`Dict[str, int]`, modelled as an association list; `details` is an
optional list of JSON objects (`List[Dict[str, Any]]`). -/
structure QuizSubmission where
  student_name : Option String
  quiz_key : String
  answers : List (String × Int)
  score : Option Int
  total : Option Int
  details : Option (List (List (String × Json)))

/-- One entry of the `details` list built in `submit_quiz`
(`src/main.py` lines 147-153). -/
structure QuizDetail where
  id : String
  question : String
  selected : Int
  correct_answer : Int
  is_correct : Bool
deriving Repr, DecidableEq

/-- The `result` dict built in `submit_quiz` (`src/main.py`
lines 155-161), also the document persisted to the store. -/
structure QuizResult where
  student_name : Option String
  quiz_key : String
  score : Nat
  total : Nat
  details : List QuizDetail
deriving Repr, DecidableEq

/-- A FastAPI `HTTPException`: status code and detail string. -/
structure HTTPError where
  status_code : Nat
  detail : String
deriving Repr, DecidableEq

/-- The JSON body FastAPI renders for an `HTTPException`. -/
def HTTPError.body (e : HTTPError) : Json :=
  .obj [("detail", .str e.detail)]

/-- The `GET /api/quizzes/{quiz_key}` handler `get_quiz`
(`src/main.py` lines 124-130): unknown key gives 404, otherwise the
questions are rebuilt with only `id`, `question` and `options`. -/
def get_quiz (quiz_key : String) : Except HTTPError QuizDefinition :=
  match QUIZ_BANK.lookup quiz_key with
  | none => .error ⟨404, "Quiz not found"⟩
  | some data =>
      .ok { title := data.title
            questions := data.questions.map fun q =>
              { id := q.id, question := q.question, options := q.options } }

/-- The JSON rendering of a `QuizQuestion` under the
`response_model=QuizDefinition` serialization: exactly the declared
fields `id`, `question`, `options`. -/
def QuizQuestion.toJson (q : QuizQuestion) : Json :=
  .obj [("id", .str q.id), ("question", .str q.question),
        ("options", .arr (q.options.map .str))]

/-- The body of the grading loop in `submit_quiz` (`src/main.py`
lines 141-153): one iteration updates the correct-count and appends one
detail entry. `selected` defaults to `-1` when the question id is absent
from the answer map. -/
def gradeStep (answers : List (String × Int)) (acc : Nat × List QuizDetail)
    (q : BankQuestion) : Nat × List QuizDetail :=
  let selected := (answers.lookup q.id).getD (-1)
  let is_correct := selected == q.answer
  ((if is_correct then acc.1 + 1 else acc.1),
   acc.2 ++ [{ id := q.id, question := q.question, selected := selected,
               correct_answer := q.answer, is_correct := is_correct }])

/-- The detail entry produced for a single question. -/
def gradeOne (answers : List (String × Int)) (q : BankQuestion) : QuizDetail :=
  let selected := (answers.lookup q.id).getD (-1)
  { id := q.id, question := q.question, selected := selected,
    correct_answer := q.answer, is_correct := selected == q.answer }

/-- The `POST /api/quizzes/{quiz_key}/submit` handler `submit_quiz`
(`src/main.py` lines 133-167). `storeOk` abstracts whether the
`create_document` call succeeds; the second component is the list of
documents actually inserted into the store (`try/except: pass` swallows
the failure). -/
def submit_quiz (storeOk : Bool) (quiz_key : String) (payload : QuizSubmission) :
    Except HTTPError QuizResult × List QuizResult :=
  match QUIZ_BANK.lookup quiz_key with
  | none => (.error ⟨404, "Quiz not found"⟩, [])
  | some data =>
      let total := data.questions.length
      let graded := data.questions.foldl (gradeStep payload.answers) (0, [])
      let result : QuizResult :=
        { student_name := payload.student_name
          quiz_key := quiz_key
          score := graded.1
          total := total
          details := graded.2 }
      (.ok result, if storeOk then [result] else [])

/-- Pydantic validation of a string field. -/
def parseString : Json → Option String
  | .str s => some s
  | _ => none

/-- Pydantic validation of the entries of a `Dict[str, int]` field:
every value must be an integer. -/
def parseAnswerEntries : List (String × Json) → Option (List (String × Int))
  | [] => some []
  | (k, Json.int n) :: t => (parseAnswerEntries t).map (fun r => (k, n) :: r)
  | _ => none

/-- Pydantic validation of the `Dict[str, int]` answers field. -/
def parseAnswers : Json → Option (List (String × Int))
  | .obj fields => parseAnswerEntries fields
  | _ => none

/-- Pydantic validation of an optional field of a JSON object:
missing or `null` yields the default. -/
def parseOpt {α : Type} (body : List (String × Json)) (key : String)
    (dflt : α) (p : Json → Option α) : Option α :=
  match body.lookup key with
  | none => some dflt
  | some .null => some dflt
  | some v => p v

/-- Pydantic validation of the entries of a `List[Dict[str, Any]]`
field: every element must be a JSON object. -/
def parseDetailEntries : List Json → Option (List (List (String × Json)))
  | [] => some []
  | Json.obj f :: t => (parseDetailEntries t).map (fun r => f :: r)
  | _ => none

/-- Pydantic validation of the `Optional[List[Dict[str, Any]]]` details
field. -/
def parseDetails : Json → Option (List (List (String × Json)))
  | .arr items => parseDetailEntries items
  | _ => none

/-- Pydantic validation of a `QuizSubmission` request body
(`src/schemas.py` lines 36-43): `quiz_key` is required
(`Field(...)`); `student_name`, `score`, `total`, `details` default to
`None`; `answers` defaults to the empty dict. -/
def parseQuizSubmission (body : List (String × Json)) : Option QuizSubmission :=
  match body.lookup "quiz_key" with
  | none => none
  | some v =>
      match parseString v with
      | none => none
      | some qk =>
          match parseOpt body "student_name" none (fun j => (parseString j).map some),
                parseOpt body "answers" [] parseAnswers,
                parseOpt body "score" none (fun j => match j with | .int n => some (some n) | _ => none),
                parseOpt body "total" none (fun j => match j with | .int n => some (some n) | _ => none),
                parseOpt body "details" none (fun j => (parseDetails j).map some) with
          | some sn, some ans, some sc, some tot, some det =>
              some { student_name := sn, quiz_key := qk, answers := ans,
                     score := sc, total := tot, details := det }
          | _, _, _, _, _ => none

/-- The submit endpoint including FastAPI body validation: a body that
fails `QuizSubmission` validation is rejected with a 422 before the
handler runs. -/
def submit_quiz_endpoint (storeOk : Bool) (quiz_key : String)
    (body : List (String × Json)) : Except HTTPError QuizResult × List QuizResult :=
  match parseQuizSubmission body with
  | none => (.error ⟨422, "Unprocessable Entity"⟩, [])
  | some payload => submit_quiz storeOk quiz_key payload

/-- `Reflection` from `src/schemas.py` lines 23-29. -/
structure Reflection where
  worksheet_id : String
  student_name : String
  understanding_level : Int
  feelings : Option String
  challenges : Option String
  questions : Option String
deriving Repr, DecidableEq

/-- Modelled from the spec: the `bson.ObjectId` constructor used by
`submit_reflection` to validate `worksheet_id` lives in the `bson`
library, not in the two source files; the spec describes validity as a
"fixed-length hex-like token in the common 24-hex-character object-id
convention". -/
def isValidObjectId (s : String) : Bool :=
  s.length == 24 && s.toList.all fun c =>
    (Char.isDigit c) || (('a' ≤ c && c ≤ 'f') || ('A' ≤ c && c ≤ 'F'))

/-- The `POST /api/reflections` handler `submit_reflection`
(`src/main.py` lines 108-120). `storeResult` abstracts the outcome of
the `create_document` call (`.ok id` or `.error message`); the second
component records whether the store was reached at all. -/
def submit_reflection (storeResult : Except String String)
    (payload : Reflection) : Except HTTPError String × Bool :=
  if isValidObjectId payload.worksheet_id then
    match storeResult with
    | .ok inserted_id => (.ok inserted_id, true)
    | .error msg => (.error ⟨500, msg⟩, true)
  else
    (.error ⟨400, "Invalid worksheet_id"⟩, false)

deriving instance DecidableEq for Except

/-! ### Helper lemmas about the grading fold -/

/-- The grading loop, run from any accumulator, adds the count of
correctly answered questions and appends one detail per question in
order. -/
theorem gradeStep_foldl (answers : List (String × Int))
    (qs : List BankQuestion) (c : Nat) (ds : List QuizDetail) :
    qs.foldl (gradeStep answers) (c, ds) =
      (c + qs.countP (fun q => ((answers.lookup q.id).getD (-1)) == q.answer),
       ds ++ qs.map (gradeOne answers)) := by
  induction qs generalizing c ds with
  | nil => simp
  | cons q qs ih =>
      rw [List.foldl_cons, List.countP_cons, List.map_cons]
      show List.foldl (gradeStep answers) (gradeStep answers (c, ds) q) qs = _
      rw [gradeStep, ih]
      by_cases h : ((answers.lookup q.id).getD (-1)) == q.answer
      · simp [h, gradeOne]
        omega
      · simp [h, gradeOne]

/-- `List.lookup` is invariant under permutation when the keys are
distinct. -/
theorem lookup_eq_of_perm_nodup {α β : Type} [BEq α] [LawfulBEq α]
    {l₁ l₂ : List (α × β)} (h : l₁.Perm l₂)
    (hnd : (l₁.map Prod.fst).Nodup) (k : α) :
    l₁.lookup k = l₂.lookup k := by
  induction h with
  | nil => rfl
  | cons x _ ih =>
      rw [List.lookup_cons, List.lookup_cons]
      cases hk : k == x.1 with
      | true => rfl
      | false =>
          rw [List.map_cons, List.nodup_cons] at hnd
          exact ih hnd.2
  | swap x y t =>
      rw [List.lookup_cons, List.lookup_cons, List.lookup_cons,
        List.lookup_cons]
      rw [List.map_cons, List.map_cons, List.nodup_cons, List.mem_cons] at hnd
      cases hky : k == y.1 with
      | true =>
          cases hkx : k == x.1 with
          | true =>
              exact absurd ((eq_of_beq hky).symm.trans (eq_of_beq hkx))
                (fun hxy => hnd.1 (Or.inl hxy))
          | false => rfl
      | false => rfl
  | trans h₁ _ ih₁ ih₂ =>
      exact (ih₁ hnd).trans (ih₂ (((h₁.map Prod.fst).nodup_iff).mp hnd))

/-- The only key in `QUIZ_BANK` is `"network-topologies"`. -/
theorem lookup_QUIZ_BANK {key : String} {data : QuizData}
    (h : QUIZ_BANK.lookup key = some data) :
    key = "network-topologies" ∧ data = networkTopologiesData := by
  rw [QUIZ_BANK, List.lookup_cons] at h
  cases hk : key == "network-topologies" with
  | true =>
      rw [hk] at h
      exact ⟨eq_of_beq hk, (Option.some_injective _ h).symm⟩
  | false =>
      rw [hk] at h
      exact absurd h (by simp)

/-- Counting correct details over the per-question detail list agrees
with counting correctly answered questions. -/
theorem countP_gradeOne (a : List (String × Int)) (qs : List BankQuestion) :
    (qs.map (gradeOne a)).countP (fun d => d.is_correct) =
      qs.countP (fun q => ((a.lookup q.id).getD (-1)) == q.answer) := by
  rw [List.countP_map]; rfl

/-- The detail list carries the question ids in definition order. -/
theorem map_id_gradeOne (a : List (String × Int)) (qs : List BankQuestion) :
    (qs.map (gradeOne a)).map (fun d => d.id) = qs.map (fun q => q.id) := by
  rw [List.map_map]; rfl

/-! ### Claim theorems -/

/-- C1: for every submission against a known quiz key, the returned
result has `score` equal to the number of details with `is_correct`,
`total` equal to the number of questions in the quiz definition, details
in the definition's original question order (one per question), and the
whole result is unchanged when the submitted answer map's entries are
reordered. -/
theorem submit_quiz_grading_invariants (st : Bool) (key : String)
    (data : QuizData) (payload : QuizSubmission)
    (h : QUIZ_BANK.lookup key = some data) :
    ∃ r : QuizResult,
      (submit_quiz st key payload).1 = .ok r ∧
      r.score = r.details.countP (fun d => d.is_correct) ∧
      r.total = data.questions.length ∧
      r.details.map (fun d => d.id) = data.questions.map (fun q => q.id) ∧
      ∀ answers₂ : List (String × Int),
        payload.answers.Perm answers₂ →
        (payload.answers.map Prod.fst).Nodup →
        (submit_quiz st key { payload with answers := answers₂ }).1 = .ok r := by
  simp only [submit_quiz, h, gradeStep_foldl, Nat.zero_add, List.nil_append]
  refine ⟨_, rfl, ?_, rfl, ?_, ?_⟩
  · rw [countP_gradeOne]
  · rw [map_id_gradeOne]
  · intro answers₂ hperm hnd
    have hlk : ∀ k, answers₂.lookup k = payload.answers.lookup k :=
      fun k => (lookup_eq_of_perm_nodup hperm hnd k).symm
    have h1 : (fun q : BankQuestion =>
        ((answers₂.lookup q.id).getD (-1)) == q.answer) =
        (fun q : BankQuestion =>
          ((payload.answers.lookup q.id).getD (-1)) == q.answer) :=
      funext fun q => by rw [hlk]
    have h2 : gradeOne answers₂ = gradeOne payload.answers :=
      funext fun q => by simp only [gradeOne, hlk]
    simp only [submit_quiz, h, gradeStep_foldl, Nat.zero_add,
      List.nil_append, h1, h2]

/-- C2: the JSON body with answers {q1 ↦ 1, q2 ↦ 0, q3 ↦ 1} posted to
the `network-topologies` submit endpoint yields score 2, total 6, and a
q3 detail with `is_correct = false`, `selected = 1`,
`correct_answer = 0`. -/
theorem c2_scenario (st : Bool) :
    ∃ r : QuizResult,
      (submit_quiz_endpoint st "network-topologies"
        [("quiz_key", Json.str "network-topologies"),
         ("answers", Json.obj [("q1", Json.int 1), ("q2", Json.int 0),
                               ("q3", Json.int 1)])]).1 = .ok r ∧
      r.score = 2 ∧ r.total = 6 ∧
      r.details.filter (fun d => d.id == "q3") =
        [{ id := "q3"
           question := "Which topology provides multiple redundant paths between nodes?"
           selected := 1, correct_answer := 0, is_correct := false }] := by
  cases st <;> exact ⟨_, rfl, by decide, by decide, by decide⟩

/-- C3: an unknown quiz key makes both the fetch and the submit
endpoints fail with a 404 whose rendered body is
`{"detail": "Quiz not found"}`; the submit handler returns this error
with nothing persisted to the store, for every payload and store
outcome. -/
theorem unknown_quiz_404 (key : String) (st : Bool)
    (payload : QuizSubmission) (h : QUIZ_BANK.lookup key = none) :
    get_quiz key = .error ⟨404, "Quiz not found"⟩ ∧
    submit_quiz st key payload = (.error ⟨404, "Quiz not found"⟩, []) ∧
    (HTTPError.mk 404 "Quiz not found").body =
      .obj [("detail", .str "Quiz not found")] := by
  refine ⟨?_, ?_, rfl⟩ <;> simp [get_quiz, submit_quiz, h]

/-- C3 witness at the concrete unknown key `"algebra"`. -/
theorem unknown_quiz_404_witness :
    get_quiz "algebra" = .error ⟨404, "Quiz not found"⟩ ∧
    submit_quiz true "algebra"
        { student_name := none, quiz_key := "algebra", answers := [],
          score := none, total := none, details := none } =
      (.error ⟨404, "Quiz not found"⟩, []) ∧
    (HTTPError.mk 404 "Quiz not found").body =
      .obj [("detail", .str "Quiz not found")] :=
  unknown_quiz_404 "algebra" true
    { student_name := none, quiz_key := "algebra", answers := [],
      score := none, total := none, details := none } (by decide)

/-- C1 witness at the `network-topologies` key and a two-entry answer
map. -/
theorem submit_quiz_grading_invariants_witness :
    ∃ r : QuizResult,
      (submit_quiz true "network-topologies"
        { student_name := some "Ada", quiz_key := "network-topologies",
          answers := [("q2", 0), ("q1", 1)], score := none, total := none,
          details := none }).1 = .ok r ∧
      r.score = r.details.countP (fun d => d.is_correct) ∧
      r.total = networkTopologiesData.questions.length ∧
      r.details.map (fun d => d.id) =
        networkTopologiesData.questions.map (fun q => q.id) ∧
      ∀ answers₂ : List (String × Int),
        List.Perm [("q2", 0), ("q1", 1)] answers₂ →
        (List.map Prod.fst
          ([("q2", 0), ("q1", 1)] : List (String × Int))).Nodup →
        (submit_quiz true "network-topologies"
          { student_name := some "Ada", quiz_key := "network-topologies",
            answers := answers₂, score := none, total := none,
            details := none }).1 = .ok r :=
  submit_quiz_grading_invariants true "network-topologies"
    networkTopologiesData
    { student_name := some "Ada", quiz_key := "network-topologies",
      answers := [("q2", 0), ("q1", 1)], score := none, total := none,
      details := none }
    (by decide)

/-- The JSON body a client sends when it supplies an optional
student name, a quiz key, and an answer map. -/
def mkSubmissionBody (sn : Option String) (qk : String)
    (ans : List (String × Int)) : List (String × Json) :=
  (match sn with
   | none => []
   | some s => [("student_name", Json.str s)]) ++
  [("quiz_key", Json.str qk),
   ("answers", Json.obj (ans.map fun kv => (kv.1, Json.int kv.2)))]

/-- An answer map rendered as JSON integers parses back to itself. -/
theorem parseAnswerEntries_map (ans : List (String × Int)) :
    parseAnswerEntries (ans.map fun kv => (kv.1, Json.int kv.2)) =
      some ans := by
  induction ans with
  | nil => rfl
  | cons kv t ih => simp [parseAnswerEntries, ih]

/-- A body with a quiz key, an optional student name and an answer map
passes `QuizSubmission` validation, with the remaining fields at their
defaults. -/
theorem parseQuizSubmission_mkBody (sn : Option String) (qk : String)
    (ans : List (String × Int)) :
    parseQuizSubmission (mkSubmissionBody sn qk ans) =
      some { student_name := sn, quiz_key := qk, answers := ans,
             score := none, total := none, details := none } := by
  cases sn <;>
    simp [parseQuizSubmission, mkSubmissionBody, parseOpt, parseString,
      parseAnswers, parseAnswerEntries_map, List.lookup]

/-- C4 counterexample: a body holding only an answers map — no
`quiz_key` — fails `QuizSubmission` validation, so the submit endpoint
rejects it with a 422 instead of returning a QuizResult, even for the
known key `network-topologies`. -/
theorem submission_body_missing_quiz_key_rejected :
    parseQuizSubmission [("answers", Json.obj [("q1", Json.int 1)])] =
      none ∧
    (submit_quiz_endpoint true "network-topologies"
      [("answers", Json.obj [("q1", Json.int 1)])]).1 =
      .error ⟨422, "Unprocessable Entity"⟩ :=
  ⟨rfl, rfl⟩

/-- C4 amended: the body must also carry a `quiz_key` string (required
by the `QuizSubmission` schema); any body with a `quiz_key` string, an
optional `student_name` string and an answers mapping from question id
to number is accepted, and for a known quiz key the endpoint returns the
QuizResult. -/
theorem submission_body_accepted (st : Bool) (sn : Option String)
    (qk : String) (ans : List (String × Int)) (key : String)
    (data : QuizData) (h : QUIZ_BANK.lookup key = some data) :
    parseQuizSubmission (mkSubmissionBody sn qk ans) =
      some { student_name := sn, quiz_key := qk, answers := ans,
             score := none, total := none, details := none } ∧
    ∃ r : QuizResult,
      (submit_quiz_endpoint st key (mkSubmissionBody sn qk ans)).1 =
        .ok r := by
  refine ⟨parseQuizSubmission_mkBody sn qk ans, ?_⟩
  simp only [submit_quiz_endpoint, parseQuizSubmission_mkBody,
    submit_quiz, h]
  exact ⟨_, rfl⟩

/-- C4 amended witness at a concrete well-formed body. -/
theorem submission_body_accepted_witness :
    parseQuizSubmission
        (mkSubmissionBody (some "Ada") "network-topologies" [("q1", 1)]) =
      some { student_name := some "Ada", quiz_key := "network-topologies",
             answers := [("q1", 1)], score := none, total := none,
             details := none } ∧
    ∃ r : QuizResult,
      (submit_quiz_endpoint true "network-topologies"
        (mkSubmissionBody (some "Ada") "network-topologies"
          [("q1", 1)])).1 = .ok r :=
  submission_body_accepted true (some "Ada") "network-topologies"
    [("q1", 1)] "network-topologies" networkTopologiesData (by decide)

/-- C5: fetching the `network-topologies` quiz returns exactly 6
questions, and no question object in the JSON rendering of the response
carries an `answer` field. -/
theorem get_quiz_strips_answers :
    ∃ d : QuizDefinition, get_quiz "network-topologies" = .ok d ∧
      d.questions.length = 6 ∧
      d.questions.all
        (fun q => !(q.toJson.objKeys.contains "answer")) = true :=
  ⟨_, rfl, by decide, by decide⟩

/-- C6: a submission with an empty answer map scores 0, every detail's
`selected` is the sentinel `-1`, and the sentinel differs from every
correct-option index of the quiz. -/
theorem empty_answers_score_zero (st : Bool) (key : String)
    (data : QuizData) (payload : QuizSubmission)
    (h : QUIZ_BANK.lookup key = some data)
    (hemp : payload.answers = []) :
    ∃ r : QuizResult,
      (submit_quiz st key payload).1 = .ok r ∧
      r.score = 0 ∧
      r.details.all (fun d => d.selected == -1) = true ∧
      data.questions.all (fun q => !((-1 : Int) == q.answer)) = true := by
  obtain ⟨hkey, hdata⟩ := lookup_QUIZ_BANK h
  subst hkey
  subst hdata
  simp only [submit_quiz, h, gradeStep_foldl, Nat.zero_add, List.nil_append,
    hemp]
  refine ⟨_, rfl, ?_, ?_, by decide⟩ <;> (dsimp only; decide)

/-- C6 witness at the empty answer map. -/
theorem empty_answers_score_zero_witness :
    ∃ r : QuizResult,
      (submit_quiz true "network-topologies"
        { student_name := none, quiz_key := "network-topologies",
          answers := [], score := none, total := none,
          details := none }).1 = .ok r ∧
      r.score = 0 ∧
      r.details.all (fun d => d.selected == -1) = true ∧
      networkTopologiesData.questions.all
        (fun q => !((-1 : Int) == q.answer)) = true :=
  empty_answers_score_zero true "network-topologies" networkTopologiesData
    { student_name := none, quiz_key := "network-topologies",
      answers := [], score := none, total := none, details := none }
    (by decide) rfl

/-- C7: grading ignores answer-map entries whose keys are not question
ids: two submissions whose answer maps agree on every question id of the
quiz produce the same score, total and details, and total equals the
number of questions in the definition. -/
theorem extra_answer_keys_ignored (st : Bool) (key : String)
    (data : QuizData) (p₁ p₂ : QuizSubmission)
    (h : QUIZ_BANK.lookup key = some data)
    (hagree : ∀ q ∈ data.questions,
      p₁.answers.lookup q.id = p₂.answers.lookup q.id) :
    ∃ r₁ r₂ : QuizResult,
      (submit_quiz st key p₁).1 = .ok r₁ ∧
      (submit_quiz st key p₂).1 = .ok r₂ ∧
      r₁.score = r₂.score ∧ r₁.total = r₂.total ∧
      r₁.details = r₂.details ∧
      r₁.total = data.questions.length := by
  have hdet : data.questions.map (gradeOne p₁.answers) =
      data.questions.map (gradeOne p₂.answers) :=
    List.map_congr_left fun q hq => by
      simp only [gradeOne, hagree q hq]
  simp only [submit_quiz, h, gradeStep_foldl, Nat.zero_add, List.nil_append]
  refine ⟨_, _, rfl, rfl, ?_, rfl, ?_, rfl⟩
  · rw [← countP_gradeOne, ← countP_gradeOne, hdet]
  · exact hdet

/-- C7 witness: an answer map with the extra key `"zzz"` grades like one
without it. -/
theorem extra_answer_keys_ignored_witness :
    ∃ r₁ r₂ : QuizResult,
      (submit_quiz true "network-topologies"
        { student_name := none, quiz_key := "network-topologies",
          answers := [("q1", 1), ("zzz", 3)], score := none, total := none,
          details := none }).1 = .ok r₁ ∧
      (submit_quiz true "network-topologies"
        { student_name := none, quiz_key := "network-topologies",
          answers := [("q1", 1)], score := none, total := none,
          details := none }).1 = .ok r₂ ∧
      r₁.score = r₂.score ∧ r₁.total = r₂.total ∧
      r₁.details = r₂.details ∧
      r₁.total = networkTopologiesData.questions.length :=
  extra_answer_keys_ignored true "network-topologies" networkTopologiesData
    { student_name := none, quiz_key := "network-topologies",
      answers := [("q1", 1), ("zzz", 3)], score := none, total := none,
      details := none }
    { student_name := none, quiz_key := "network-topologies",
      answers := [("q1", 1)], score := none, total := none,
      details := none }
    (by decide) (by decide)

/-- C8: the submit handler returns the same result whether the store
insert succeeds or fails — for a known key it returns `.ok` of one fixed
QuizResult for both store outcomes, so a persistence failure is never a
client-visible error. -/
theorem persistence_best_effort (key : String) (payload : QuizSubmission)
    (data : QuizData) (h : QUIZ_BANK.lookup key = some data) :
    (submit_quiz true key payload).1 = (submit_quiz false key payload).1 ∧
    ∃ r : QuizResult, ∀ st : Bool, (submit_quiz st key payload).1 = .ok r := by
  have hr : ∀ st : Bool, (submit_quiz st key payload).1 = .ok
      { student_name := payload.student_name, quiz_key := key,
        score := (data.questions.foldl (gradeStep payload.answers) (0, [])).1
        total := data.questions.length
        details :=
          (data.questions.foldl (gradeStep payload.answers) (0, [])).2 } := by
    intro st
    simp only [submit_quiz, h]
  exact ⟨(hr true).trans (hr false).symm, _, hr⟩

/-- C8 witness at a concrete submission. -/
theorem persistence_best_effort_witness :
    (submit_quiz true "network-topologies"
      { student_name := some "Ada", quiz_key := "network-topologies",
        answers := [("q1", 1)], score := none, total := none,
        details := none }).1 =
    (submit_quiz false "network-topologies"
      { student_name := some "Ada", quiz_key := "network-topologies",
        answers := [("q1", 1)], score := none, total := none,
        details := none }).1 ∧
    ∃ r : QuizResult, ∀ st : Bool,
      (submit_quiz st "network-topologies"
        { student_name := some "Ada", quiz_key := "network-topologies",
          answers := [("q1", 1)], score := none, total := none,
          details := none }).1 = .ok r :=
  persistence_best_effort "network-topologies"
    { student_name := some "Ada", quiz_key := "network-topologies",
      answers := [("q1", 1)], score := none, total := none,
      details := none }
    networkTopologiesData (by decide)

/-- C9: a reflection whose `worksheet_id` is not a well-formed object id
(such as `"not-an-id"`) is rejected with 400
`{"detail": "Invalid worksheet_id"}` without touching the store, for
every store outcome; by contrast, a well-formed id whose insert fails
yields a 500 carrying the store's error message. -/
theorem invalid_worksheet_id_400 (store : Except String String)
    (payload : Reflection) (hbad : payload.worksheet_id = "not-an-id") :
    submit_reflection store payload =
      (.error ⟨400, "Invalid worksheet_id"⟩, false) ∧
    (HTTPError.mk 400 "Invalid worksheet_id").body =
      .obj [("detail", .str "Invalid worksheet_id")] ∧
    ∀ (p₂ : Reflection) (msg : String),
      isValidObjectId p₂.worksheet_id = true →
      submit_reflection (.error msg) p₂ = (.error ⟨500, msg⟩, true) := by
  refine ⟨?_, rfl, ?_⟩
  · have : isValidObjectId payload.worksheet_id = false := by
      rw [hbad]; decide
    simp [submit_reflection, this]
  · intro p₂ msg hvalid
    simp [submit_reflection, hvalid]

/-- C9 witness at the concrete malformed id `"not-an-id"`. -/
theorem invalid_worksheet_id_400_witness :
    submit_reflection (.ok "abc")
      { worksheet_id := "not-an-id", student_name := "Ada",
        understanding_level := 3, feelings := none, challenges := none,
        questions := none } =
      (.error ⟨400, "Invalid worksheet_id"⟩, false) ∧
    (HTTPError.mk 400 "Invalid worksheet_id").body =
      .obj [("detail", .str "Invalid worksheet_id")] ∧
    ∀ (p₂ : Reflection) (msg : String),
      isValidObjectId p₂.worksheet_id = true →
      submit_reflection (.error msg) p₂ = (.error ⟨500, msg⟩, true) :=
  invalid_worksheet_id_400 (.ok "abc")
    { worksheet_id := "not-an-id", student_name := "Ada",
      understanding_level := 3, feelings := none, challenges := none,
      questions := none } rfl

/-- C10: the returned result's `quiz_key` is the path key, every
persisted result's `quiz_key` is the path key, and the body fields
`quiz_key`, `score`, `total`, `details` of the submission have no effect
on grading: two payloads equal in `student_name` and `answers` produce
identical score, total and details. -/
theorem body_fields_no_effect (st : Bool) (key : String) (data : QuizData)
    (p₁ p₂ : QuizSubmission) (h : QUIZ_BANK.lookup key = some data)
    (hsn : p₁.student_name = p₂.student_name)
    (hans : p₁.answers = p₂.answers) :
    ∃ r₁ r₂ : QuizResult,
      (submit_quiz st key p₁).1 = .ok r₁ ∧
      (submit_quiz st key p₂).1 = .ok r₂ ∧
      r₁.quiz_key = key ∧
      (submit_quiz st key p₁).2.all (fun r => r.quiz_key == key) = true ∧
      r₁.score = r₂.score ∧ r₁.total = r₂.total ∧
      r₁.details = r₂.details := by
  simp only [submit_quiz, h, hsn, hans]
  refine ⟨_, _, rfl, rfl, rfl, ?_, rfl, rfl, rfl⟩
  cases st <;> simp

/-- C10 witness: two payloads differing only in the body's `quiz_key`,
`score`, `total`, `details` fields. -/
theorem body_fields_no_effect_witness :
    ∃ r₁ r₂ : QuizResult,
      (submit_quiz true "network-topologies"
        { student_name := some "Ada", quiz_key := "other",
          answers := [("q1", 1)], score := some 99, total := some 99,
          details := some [] }).1 = .ok r₁ ∧
      (submit_quiz true "network-topologies"
        { student_name := some "Ada", quiz_key := "network-topologies",
          answers := [("q1", 1)], score := none, total := none,
          details := none }).1 = .ok r₂ ∧
      r₁.quiz_key = "network-topologies" ∧
      (submit_quiz true "network-topologies"
        { student_name := some "Ada", quiz_key := "other",
          answers := [("q1", 1)], score := some 99, total := some 99,
          details := some [] }).2.all
        (fun r => r.quiz_key == "network-topologies") = true ∧
      r₁.score = r₂.score ∧ r₁.total = r₂.total ∧
      r₁.details = r₂.details :=
  body_fields_no_effect true "network-topologies" networkTopologiesData
    { student_name := some "Ada", quiz_key := "other",
      answers := [("q1", 1)], score := some 99, total := some 99,
      details := some [] }
    { student_name := some "Ada", quiz_key := "network-topologies",
      answers := [("q1", 1)], score := none, total := none,
      details := none }
    (by decide) rfl rfl

end QuizApp
